import Mathlib

/- Shallow embedding of the store-assistant enterprise RAG pipeline
   (app/services/rag_service.py, app/services/prompt_service.py,
   app/channels/webchat/webhook.py) and proofs of the claimed properties.

   Modelling conventions: Python strings are lists of characters (`PyStr`),
   Python floats are rationals (the numeric literals of the source are exact
   decimals, so rational arithmetic coincides with float arithmetic on all
   reachable comparisons), Python dicts are structures holding exactly the
   fields the embedded code reads, and fallible collaborators (database,
   generative model, vector store) are explicit outcome parameters. -/

/-- A Python string, modelled as its list of Unicode code points. -/
abbrev PyStr := List Char

/-- Converts a Lean string literal to a `PyStr`. -/
def pys (s : String) : PyStr := s.toList

/-- Tests membership in the Arabic Unicode block exactly as
`_count_arabic_chars` (rag_service.py:902-904) does: `'؀' <= c <= 'ۿ'`. -/
def is_arabic_block (c : Char) : Bool :=
  decide (0x600 ≤ c.toNat) && decide (c.toNat ≤ 0x6FF)

/-- Models Python `str.isalpha` on the character ranges this repository
exercises: ASCII letters and Arabic letters.  Arabic-Indic digits
(U+0660 to U+0669), Arabic punctuation and combining marks are not
alphabetic, matching Python; code points outside these ranges are treated
as non-alphabetic. -/
def py_is_alpha (c : Char) : Bool :=
  (decide (0x41 ≤ c.toNat) && decide (c.toNat ≤ 0x5A)) ||
  (decide (0x61 ≤ c.toNat) && decide (c.toNat ≤ 0x7A)) ||
  (decide (0x620 ≤ c.toNat) && decide (c.toNat ≤ 0x64A)) ||
  (decide (0x66E ≤ c.toNat) && decide (c.toNat ≤ 0x6D3))

/-- Embeds `_count_arabic_chars` (rag_service.py:902-904). -/
def count_arabic_chars (text : PyStr) : Nat :=
  (text.filter is_arabic_block).length

/-- The denominator computed at rag_service.py:887: the number of
alphabetic characters of the text. -/
def count_alpha_chars (text : PyStr) : Nat :=
  (text.filter py_is_alpha).length

/-- The Arabic interrogative words checked at rag_service.py:897. -/
def arabic_question_words : List PyStr :=
  [pys "ما", pys "هي", pys "كيف", pys "أين", pys "متى"]

/-- Python substring test `w in text`. -/
def py_in (w text : PyStr) : Bool := decide (w <:+: text)

/-- Python `any(word in text for word in words)`: substring containment of
any of the given words. -/
def contains_any (words : List PyStr) (text : PyStr) : Bool :=
  words.any (fun w => py_in w text)

/-- Embeds `_detect_language` (rag_service.py:879-900).  A pure total
function: empty input and input with no alphabetic character return "en";
the ratio of Arabic-block characters over alphabetic characters is compared
against 0.25, then against 0.1 combined with the interrogative-word test. -/
def detect_language (text : PyStr) : String :=
  if text = [] then "en"
  else if count_alpha_chars text = 0 then "en"
  else if (0.25 : ℚ) < (count_arabic_chars text : ℚ) / (count_alpha_chars text : ℚ) then "ar"
  else if (0.1 : ℚ) < (count_arabic_chars text : ℚ) / (count_alpha_chars text : ℚ) ∧
          contains_any arabic_question_words text = true then "ar"
  else "en"

/-- Python `str.strip()`: removes whitespace from both ends. -/
def py_strip (s : PyStr) : PyStr :=
  ((s.dropWhile Char.isWhitespace).reverse.dropWhile Char.isWhitespace).reverse

/-- Python `str.lower()` (ASCII case folding; the patterns searched in
lowercased text by the embedded code are ASCII). -/
def py_lower (s : PyStr) : PyStr := s.map Char.toLower

/-- Rounds a rational to the nearest integer, ties to even — the rounding
used by Python `round`. -/
def round_half_even (q : ℚ) : ℤ :=
  if q - ⌊q⌋ < 1/2 then ⌊q⌋
  else if 1/2 < q - ⌊q⌋ then ⌊q⌋ + 1
  else if ⌊q⌋ % 2 = 0 then ⌊q⌋ else ⌊q⌋ + 1

/-- Python `round(x, 3)`: half-even rounding at three decimal places. -/
def py_round3 (q : ℚ) : ℚ := (round_half_even (q * 1000) : ℚ) / 1000

/-- The final clamp and rounding of `_calculate_hybrid_confidence`
(rag_service.py:836-839): `max(0.15, min(0.95, base))` then `round(_, 3)`. -/
def clamp_and_round (base_confidence : ℚ) : ℚ :=
  py_round3 (max 0.15 (min 0.95 base_confidence))

/-- A product row as formatted by `_query_products` (rag_service.py:310-331),
restricted to the fields consumed by the embedded downstream code
(context rendering and confidence scoring). -/
structure ProductDict where
  name : PyStr
  brand : PyStr
  sku : PyStr
  category : PyStr
  price_jod : ℚ
  original_price_jod : ℚ
  discount_percentage : ℚ
  stock_quantity : Int
  warranty_months : Int
  model_number : Option PyStr
  promotion_text : Option PyStr
deriving DecidableEq

/-- A service row as formatted by `_query_services` (rag_service.py:360-372).
The `requirements` dict is modelled by its rendered Python representation,
which is what the f-string interpolation at rag_service.py:732 produces. -/
structure ServiceDict where
  service_name : PyStr
  category : PyStr
  description : PyStr
  base_price_jod : ℚ
  duration_hours : ℚ
  requirements_repr : PyStr
deriving DecidableEq

/-- The store-info record of `_query_store_info` (rag_service.py:385-394),
restricted to the fields read by the context builder. -/
structure StoreInfo where
  name : PyStr
  address : PyStr
  phone : PyStr
  email : PyStr
  opening_hours_nonempty : Bool
deriving DecidableEq

/-- The `structured_data` record of `_retrieve_structured_data`
(rag_service.py:206-212).  The `suppliers` and `analytics` slices are not
consumed by any embedded code path and are omitted.  An empty `store_info`
dict is `none`. -/
structure StructuredData where
  products : List ProductDict
  services : List ServiceDict
  store_info : Option StoreInfo
deriving DecidableEq

/-- One match returned by the vector-search collaborator, with the metadata
fields read by `_retrieve_unstructured_data` (rag_service.py:428-444). -/
structure SearchResult where
  score : ℚ
  text : PyStr
  source : PyStr
  chunk_index : Nat
  language : PyStr
deriving DecidableEq

/-- A kept context chunk (rag_service.py:435-442). -/
structure RetrievedChunk where
  text : PyStr
  source : PyStr
  score : ℚ
  chunk_index : Nat
  language : PyStr
deriving DecidableEq

/-- The result record of `_retrieve_unstructured_data`
(rag_service.py:449-456); `search_query` is not consumed downstream and is
omitted. -/
structure UnstructuredResult where
  chunks : List RetrievedChunk
  sources : List PyStr
  total_found : Nat
  quality_chunks : Nat
  average_score : ℚ
deriving DecidableEq

/-- The query-analysis fields consumed by the embedded code paths
(intent, urgency, complexity, resolved language). -/
structure QueryAnalysis where
  intent : String
  urgency : String
  complexity : String
  language : String
deriving DecidableEq

/-- The words searched in the lowercased answer at rag_service.py:828. -/
def quality_words : List PyStr := [pys "available", pys "stock", pys "warranty"]

/-- Embeds `_calculate_hybrid_confidence` (rag_service.py:783-839).
A pure total function: base 0.2; +0.25 products, +0.15 services, +0.10
store info; `min(0.35, average_score * 0.4)` when chunks exist; complexity
adjustment; intent bonuses; answer-text bonuses; language bonus; clamp to
[0.15, 0.95] and round to three decimals. -/
def calculate_hybrid_confidence (structured_data : StructuredData)
    (unstructured_data : UnstructuredResult) (query_analysis : QueryAnalysis)
    (response_text : PyStr) : ℚ :=
  let b0 : ℚ := 0.2
  let b1 := if structured_data.products ≠ [] then b0 + 0.25 else b0
  let b2 := if structured_data.services ≠ [] then b1 + 0.15 else b1
  let b3 := if structured_data.store_info.isSome then b2 + 0.10 else b2
  let b4 := if unstructured_data.chunks ≠ [] then
              b3 + min 0.35 (unstructured_data.average_score * 0.4)
            else b3
  let b5 := if query_analysis.complexity = "simple" then b4 + 0.05
            else if query_analysis.complexity = "complex" then b4 - 0.05
            else b4
  let b6 := if (query_analysis.intent = "product_inquiry" ∨
                query_analysis.intent = "price_check") ∧
               structured_data.products ≠ [] then b5 + 0.10
            else if query_analysis.intent = "policy" ∧
                    unstructured_data.chunks ≠ [] then b5 + 0.08
            else b5
  let b7 := if response_text ≠ [] ∧ 100 < response_text.length ∧
               py_in (pys "JOD") response_text = true then b6 + 0.05
            else b6
  let b8 := if response_text ≠ [] ∧
               contains_any quality_words (py_lower response_text) = true then b7 + 0.03
            else b7
  let b9 := if query_analysis.language = "en" ∨ query_analysis.language = "ar" then b8 + 0.02
            else b8
  clamp_and_round b9

theorem round_half_even_ge (n : ℤ) (q : ℚ) (h : (n : ℚ) ≤ q) :
    n ≤ round_half_even q := by
  have hf : n ≤ ⌊q⌋ := Int.le_floor.mpr h
  unfold round_half_even
  split_ifs <;> omega

theorem round_half_even_le (n : ℤ) (q : ℚ) (h : q ≤ (n : ℚ)) :
    round_half_even q ≤ n := by
  have hf : ⌊q⌋ ≤ n := by
    have := Int.floor_le_floor h
    simpa using this
  have hstep : ¬ q - ⌊q⌋ < 1/2 → ⌊q⌋ + 1 ≤ n := by
    intro hr
    have h1 : (⌊q⌋ : ℚ) + 1/2 ≤ q := by linarith
    have h2 : (⌊q⌋ : ℚ) + 1/2 ≤ (n : ℚ) := le_trans h1 h
    have h3 : (⌊q⌋ : ℚ) < (n : ℚ) := by linarith
    have h4 : ⌊q⌋ < n := by exact_mod_cast h3
    omega
  unfold round_half_even
  split_ifs with h1 h2 h3
  · omega
  · exact hstep h1
  · omega
  · exact hstep h1

theorem clamp_and_round_bounds (q : ℚ) :
    (0.15 : ℚ) ≤ clamp_and_round q ∧ clamp_and_round q ≤ 0.95 := by
  set m := max (0.15 : ℚ) (min 0.95 q) with hm
  have h1 : (0.15 : ℚ) ≤ m := le_max_left _ _
  have h2 : m ≤ (0.95 : ℚ) := by
    apply max_le
    · norm_num
    · exact min_le_left _ _
  have hg : (150 : ℤ) ≤ round_half_even (m * 1000) := by
    apply round_half_even_ge
    push_cast
    linarith
  have hl : round_half_even (m * 1000) ≤ (950 : ℤ) := by
    apply round_half_even_le
    push_cast
    linarith
  have hgq : (150 : ℚ) ≤ (round_half_even (m * 1000) : ℚ) := by exact_mod_cast hg
  have hlq : (round_half_even (m * 1000) : ℚ) ≤ 950 := by exact_mod_cast hl
  unfold clamp_and_round py_round3
  rw [← hm]
  constructor
  · rw [le_div_iff₀ (by norm_num : (0 : ℚ) < 1000)]
    linarith
  · rw [div_le_iff₀ (by norm_num : (0 : ℚ) < 1000)]
    linarith

/-- C2: for every combination of inputs — any structured data with empty or
non-empty product, service and store-info slices, any chunk list and average
score, any query analysis and any response text — the confidence scorer is a
total function (by construction) whose result lies in the closed interval
[0.15, 0.95]. -/
theorem c2_confidence_always_in_bounds (sd : StructuredData) (ud : UnstructuredResult)
    (qa : QueryAnalysis) (response_text : PyStr) :
    (0.15 : ℚ) ≤ calculate_hybrid_confidence sd ud qa response_text ∧
    calculate_hybrid_confidence sd ud qa response_text ≤ 0.95 := by
  unfold calculate_hybrid_confidence
  exact clamp_and_round_bounds _

/-- C9: the language classifier always returns a supported language; it
returns "ar" exactly when the text has an alphabetic character and the
Arabic-block ratio exceeds 0.25, or exceeds 0.1 while the text contains one
of the Arabic interrogative words; empty or all-non-alphabetic input returns
"en".  Purity and totality hold by construction. -/
theorem c9_detect_language_characterization (text : PyStr) :
    (detect_language text = "en" ∨ detect_language text = "ar") ∧
    (detect_language text = "ar" ↔
      (0 < count_alpha_chars text ∧
        ((0.25 : ℚ) < (count_arabic_chars text : ℚ) / (count_alpha_chars text : ℚ) ∨
         ((0.1 : ℚ) < (count_arabic_chars text : ℚ) / (count_alpha_chars text : ℚ) ∧
          contains_any arabic_question_words text = true)))) ∧
    ((text = [] ∨ count_alpha_chars text = 0) → detect_language text = "en") := by
  unfold detect_language
  split_ifs with h1 h2 h3 h4
  · subst h1
    refine ⟨Or.inl rfl, ?_, fun _ => rfl⟩
    simp [count_alpha_chars]
  · refine ⟨Or.inl rfl, ?_, fun _ => rfl⟩
    simp [h2]
  · refine ⟨Or.inr rfl, ?_, ?_⟩
    · simp only [true_iff]
      exact ⟨Nat.pos_of_ne_zero h2, Or.inl h3⟩
    · rintro (h | h) <;> [exact absurd h h1; exact absurd h h2]
  · refine ⟨Or.inr rfl, ?_, ?_⟩
    · simp only [true_iff]
      exact ⟨Nat.pos_of_ne_zero h2, Or.inr h4⟩
    · rintro (h | h) <;> [exact absurd h h1; exact absurd h h2]
  · refine ⟨Or.inl rfl, ?_, fun _ => rfl⟩
    constructor
    · intro h
      simp at h
    · rintro ⟨-, h | h⟩
      · exact absurd h h3
      · exact absurd h h4

/-- Witness for C9 at a concrete input: a text with no alphabetic character
is classified as the primary language. -/
theorem c9_witness : detect_language (pys "123") = "en" :=
  (c9_detect_language_characterization (pys "123")).2.2 (Or.inr (by decide))

/-- Arabic fallback message of `_fallback_response` (rag_service.py:911-917). -/
def fallback_message_ar : PyStr := pys "أعتذر، أواجه صعوبة تقنية في معالجة طلبك حالياً. \n\nيرجى المحاولة مرة أخرى أو الاتصال بفريق الدعم:\n📞 +970-9-234-5678\n📧 info@techmart-palestine.ps\n\nأو زيارة متجرنا في شارع الرفيدية، نابلس."

/-- English fallback message of `_fallback_response` (rag_service.py:919-925). -/
def fallback_message_en : PyStr := pys "I apologize, but I\x27m experiencing technical difficulties processing your request right now. \n\nPlease try again in a moment or contact our support team:\n📞 +970-9-234-5678\n📧 info@techmart-palestine.ps\n\nYou can also visit our store at Rafidia Street, Nablus."

/-- The store phone number, present in both fallback messages. -/
def contact_phone : PyStr := pys "+970-9-234-5678"

/-- The `data_sources` record of the response dict (rag_service.py:625-630
and 932-937). -/
structure DataSources where
  structured : Bool
  unstructured : Bool
  hybrid : Bool
  store_info : Bool
deriving DecidableEq

/-- The `metadata` record of the response dict (rag_service.py:631-641 and
938-949).  The success path carries no `error_type` key, modelled as `none`. -/
structure ResponseMetadata where
  products_found : Nat
  services_found : Nat
  context_chunks : Nat
  vector_quality : ℚ
  intent : String
  complexity : String
  urgency : String
  response_length : Nat
  processing_successful : Bool
  error_type : Option String
deriving DecidableEq

/-- The response dict returned by `generate_response`
(rag_service.py:620-642 and 927-950). -/
structure ResponseData where
  answer : PyStr
  language : String
  sources : List PyStr
  confidence : ℚ
  data_sources : DataSources
  metadata : ResponseMetadata
deriving DecidableEq

/-- Embeds `_fallback_response` (rag_service.py:906-950).  A total pure
function of its two arguments, so the handler itself cannot raise.  The
message is the Arabic template when the language argument is exactly "ar"
and the English template otherwise. -/
def fallback_response (user_message : PyStr) (language : String) : ResponseData :=
  let message := if language = "ar" then fallback_message_ar else fallback_message_en
  { answer := message
    language := language
    sources := [pys "Fallback Response"]
    confidence := 0.15
    data_sources := { structured := false, unstructured := false, hybrid := false,
                      store_info := true }
    metadata := { products_found := 0, services_found := 0, context_chunks := 0,
                  vector_quality := 0, intent := "system_error", complexity := "error",
                  urgency := "high", response_length := message.length,
                  processing_successful := false,
                  error_type := some "technical_difficulty" } }

/-- Embeds the response construction of `_generate_hybrid_response`
(rag_service.py:605-644): confidence scoring, source compilation with
`list(set(...))` modelled as order-preserving dedup, and the response dict
with its `data_sources` flags and metadata. -/
def build_response_data (query_analysis : QueryAnalysis) (structured_data : StructuredData)
    (unstructured_data : UnstructuredResult) (ai_response : PyStr) : ResponseData :=
  let confidence := calculate_hybrid_confidence structured_data unstructured_data
    query_analysis ai_response
  let all_sources :=
    unstructured_data.sources ++
    (if structured_data.products ≠ [] then [pys "Product Database"] else []) ++
    (if structured_data.services ≠ [] then [pys "Service Database"] else []) ++
    (if structured_data.store_info.isSome then [pys "Store Information"] else [])
  { answer := ai_response
    language := query_analysis.language
    sources := all_sources.dedup
    confidence := confidence
    data_sources := { structured := !structured_data.products.isEmpty ||
                                    !structured_data.services.isEmpty
                      unstructured := !unstructured_data.chunks.isEmpty
                      hybrid := true
                      store_info := structured_data.store_info.isSome }
    metadata := { products_found := structured_data.products.length
                  services_found := structured_data.services.length
                  context_chunks := unstructured_data.chunks.length
                  vector_quality := unstructured_data.average_score
                  intent := query_analysis.intent
                  complexity := query_analysis.complexity
                  urgency := query_analysis.urgency
                  response_length := ai_response.length
                  processing_successful := true
                  error_type := none } }

/-- Embeds `_generate_hybrid_response` (rag_service.py:540-648): on an
exception inside its try block (modelled by `generator_failure`) the method
returns `_fallback_response(user_message, language)` (line 648); otherwise
the model output is stripped (line 603) and the response dict is built. -/
def generate_hybrid_response (user_message : PyStr) (query_analysis : QueryAnalysis)
    (structured_data : StructuredData) (unstructured_data : UnstructuredResult)
    (language : String) (generator_failure : Bool) (model_output : PyStr) : ResponseData :=
  if generator_failure then fallback_response user_message language
  else build_response_data query_analysis structured_data unstructured_data
    (py_strip model_output)

/-- The intent, urgency and complexity fields parsed from the
query-analysis model call. -/
structure AnalysisFields where
  intent : String
  urgency : String
  complexity : String
deriving DecidableEq

/-- Embeds `_analyze_query` (rag_service.py:116-196): on a model-call or
JSON-parse failure (modelled by `analyzer_failure`) the fixed default
analysis is returned; both branches resolve the language field identically
(lines 167 and 192): the detected language when the hint is "auto",
otherwise the hint itself. -/
def analyze_query (query : PyStr) (language : String) (analyzer_failure : Bool)
    (parsed : AnalysisFields) : QueryAnalysis :=
  let resolved := if language = "auto" then detect_language query else language
  if analyzer_failure then
    { intent := "general", urgency := "medium", complexity := "simple", language := resolved }
  else
    { intent := parsed.intent, urgency := parsed.urgency, complexity := parsed.complexity,
      language := resolved }

/-- The collaborator outcomes and failure points of one request through
`generate_response`.  The retrieval stages absorb their own failures and
return empty slices (rag_service.py:249-251, 458-467), so retrieved data is
supplied directly; `top_level_failure` models any exception that reaches
the `except` at rag_service.py:108. -/
structure PipelineEnv where
  top_level_failure : Bool
  analyzer_failure : Bool
  generator_failure : Bool
  analysis_fields : AnalysisFields
  structured_data : StructuredData
  unstructured_data : UnstructuredResult
  model_output : PyStr
deriving DecidableEq

/-- Embeds the orchestration of `generate_response` (rag_service.py:50-114):
the pipeline runs inside a try block whose except clause returns
`_fallback_response(user_message, language)`. -/
def generate_response (user_message : PyStr) (language : String)
    (env : PipelineEnv) : ResponseData :=
  if env.top_level_failure then fallback_response user_message language
  else
    let query_analysis := analyze_query user_message language env.analyzer_failure
      env.analysis_fields
    generate_hybrid_response user_message query_analysis env.structured_data
      env.unstructured_data language env.generator_failure env.model_output

theorem fallback_ar_nonempty : fallback_message_ar ≠ [] := by decide

theorem fallback_en_nonempty : fallback_message_en ≠ [] := by decide

set_option maxRecDepth 40000 in
theorem fallback_ar_contact : py_in contact_phone fallback_message_ar = true := by decide

set_option maxRecDepth 40000 in
theorem fallback_en_contact : py_in contact_phone fallback_message_en = true := by decide

theorem fallback_response_shape (user_message : PyStr) (language : String) :
    (fallback_response user_message language).confidence = 0.15 ∧
    (fallback_response user_message language).metadata.processing_successful = false ∧
    (fallback_response user_message language).answer =
      (if language = "ar" then fallback_message_ar else fallback_message_en) ∧
    (fallback_response user_message language).answer ≠ [] ∧
    py_in contact_phone (fallback_response user_message language).answer = true ∧
    (fallback_response user_message language).metadata.error_type =
      some "technical_difficulty" := by
  refine ⟨rfl, rfl, rfl, ?_, ?_, rfl⟩
  · show (if language = "ar" then fallback_message_ar else fallback_message_en) ≠ []
    split_ifs
    · exact fallback_ar_nonempty
    · exact fallback_en_nonempty
  · show py_in contact_phone
      (if language = "ar" then fallback_message_ar else fallback_message_en) = true
    split_ifs
    · exact fallback_ar_contact
    · exact fallback_en_contact

/-- C1: whenever an exception propagates from a pipeline stage to the
top-level orchestration of `generate_response` (or is caught at the inner
generation boundary, which produces the same handler output), the returned
answer has confidence exactly 0.15, metadata marking the processing as
unsuccessful, the non-empty apology template localized by the language
argument and containing the contact phone number, and the explicit error
category "technical_difficulty"; the handler itself is a total pure
function and never raises. -/
theorem c1_fallback_on_pipeline_failure (user_message : PyStr) (language : String)
    (env : PipelineEnv)
    (hfail : env.top_level_failure = true ∨ env.generator_failure = true) :
    (generate_response user_message language env).confidence = 0.15 ∧
    (generate_response user_message language env).metadata.processing_successful = false ∧
    (generate_response user_message language env).answer =
      (if language = "ar" then fallback_message_ar else fallback_message_en) ∧
    (generate_response user_message language env).answer ≠ [] ∧
    py_in contact_phone (generate_response user_message language env).answer = true ∧
    (generate_response user_message language env).metadata.error_type =
      some "technical_difficulty" := by
  have hres : generate_response user_message language env =
      fallback_response user_message language := by
    unfold generate_response generate_hybrid_response
    rcases hfail with h | h
    · rw [h]
      simp
    · rcases henv : env.top_level_failure with _ | _
      · simp [henv, h]
      · simp [henv]
  rw [hres]
  exact fallback_response_shape user_message language

/-- Witness for C1: a concrete failing environment with an English request. -/
def c1_failing_env : PipelineEnv :=
  { top_level_failure := true, analyzer_failure := false, generator_failure := false,
    analysis_fields := { intent := "general", urgency := "medium", complexity := "simple" },
    structured_data := { products := [], services := [], store_info := none },
    unstructured_data := { chunks := [], sources := [], total_found := 0,
                           quality_chunks := 0, average_score := 0 },
    model_output := [] }

theorem c1_witness :
    (generate_response (pys "hi") "en" c1_failing_env).confidence = 0.15 ∧
    (generate_response (pys "hi") "en" c1_failing_env).metadata.processing_successful = false ∧
    (generate_response (pys "hi") "en" c1_failing_env).answer =
      (if "en" = "ar" then fallback_message_ar else fallback_message_en) ∧
    (generate_response (pys "hi") "en" c1_failing_env).answer ≠ [] ∧
    py_in contact_phone (generate_response (pys "hi") "en" c1_failing_env).answer = true ∧
    (generate_response (pys "hi") "en" c1_failing_env).metadata.error_type =
      some "technical_difficulty" :=
  c1_fallback_on_pipeline_failure (pys "hi") "en" c1_failing_env (Or.inl rfl)

/-- The closed intent enumeration declared for the query analysis
(rag_service.py:128). -/
def intent_enumeration : List String :=
  ["product_inquiry", "price_check", "availability", "policy", "support",
   "service", "comparison", "recommendation", "greeting", "general"]

/-- The closed complexity enumeration declared for the query analysis
(rag_service.py:140). -/
def complexity_enumeration : List String := ["simple", "moderate", "complex"]

/-- C10: every fallback answer carries metadata intent "system_error" and
complexity "error", and neither value belongs to the corresponding closed
enumeration declared for the query analysis — so a consumer parsing these
fields as the declared enumerations must also accept the sentinels. -/
theorem c10_fallback_sentinels_outside_enums (user_message : PyStr) (language : String) :
    ((fallback_response user_message language).metadata.intent = "system_error" ∧
      "system_error" ∉ intent_enumeration) ∧
    ((fallback_response user_message language).metadata.complexity = "error" ∧
      "error" ∉ complexity_enumeration) :=
  ⟨⟨rfl, by decide⟩, ⟨rfl, by decide⟩⟩

theorem detect_language_mem (text : PyStr) :
    detect_language text = "en" ∨ detect_language text = "ar" := by
  unfold detect_language
  split_ifs <;> simp

/-- A concrete failing environment used to exhibit the unresolved-language
escape on the failure path. -/
def c8_failing_env : PipelineEnv :=
  { top_level_failure := true, analyzer_failure := false, generator_failure := false,
    analysis_fields := { intent := "general", urgency := "medium", complexity := "simple" },
    structured_data := { products := [], services := [], store_info := none },
    unstructured_data := { chunks := [], sources := [], total_found := 0,
                           quality_chunks := 0, average_score := 0 },
    model_output := [] }

/-- C8 counterexample: a request with the unresolved hint "auto" whose
pipeline fails returns an answer whose language field is the unresolved
hint "auto" — `_fallback_response` echoes the hint instead of resolving it,
refuting the claim for failure-path answers. -/
theorem c8_counterexample_auto_escapes :
    (generate_response (pys "hello") "auto" c8_failing_env).language = "auto" ∧
    ¬ ((generate_response (pys "hello") "auto" c8_failing_env).language = "en" ∨
       (generate_response (pys "hello") "auto" c8_failing_env).language = "ar") :=
  ⟨rfl, by decide⟩

/-- C8 (amended): every answer produced on the successful path of
`generate_response` under a supported hint ("en", "ar" or "auto") carries a
resolved concrete language "en" or "ar"; on the failure path the hint is
echoed unresolved, so "auto" can escape (see the counterexample). -/
theorem c8_success_path_language_resolved (user_message : PyStr) (language : String)
    (env : PipelineEnv)
    (hsup : language = "en" ∨ language = "ar" ∨ language = "auto")
    (htop : env.top_level_failure = false)
    (hgen : env.generator_failure = false) :
    (generate_response user_message language env).language = "en" ∨
    (generate_response user_message language env).language = "ar" := by
  have hres : (generate_response user_message language env).language =
      (if language = "auto" then detect_language user_message else language) := by
    unfold generate_response generate_hybrid_response analyze_query build_response_data
    rcases ha : env.analyzer_failure with _ | _ <;> simp [htop, hgen, ha]
  rw [hres]
  split_ifs with h
  · exact detect_language_mem user_message
  · rcases hsup with h1 | h1 | h1
    · exact Or.inl h1
    · exact Or.inr h1
    · exact absurd h1 h

/-- A concrete successful environment for the C8 witness. -/
def c8_success_env : PipelineEnv :=
  { top_level_failure := false, analyzer_failure := false, generator_failure := false,
    analysis_fields := { intent := "general", urgency := "medium", complexity := "simple" },
    structured_data := { products := [], services := [], store_info := none },
    unstructured_data := { chunks := [], sources := [], total_found := 0,
                           quality_chunks := 0, average_score := 0 },
    model_output := pys "Hello" }

theorem c8_witness :
    (generate_response (pys "hello") "auto" c8_success_env).language = "en" ∨
    (generate_response (pys "hello") "auto" c8_success_env).language = "ar" :=
  c8_success_path_language_resolved (pys "hello") "auto" c8_success_env
    (Or.inr (Or.inr rfl)) rfl rfl

/-- The environment of the C5 scenario: all retrieval slices empty, simple
complexity, a short neutral model answer. -/
def c5_env : PipelineEnv :=
  { top_level_failure := false, analyzer_failure := false, generator_failure := false,
    analysis_fields := { intent := "general", urgency := "medium", complexity := "simple" },
    structured_data := { products := [], services := [], store_info := none },
    unstructured_data := { chunks := [], sources := [], total_found := 0,
                           quality_chunks := 0, average_score := 0 },
    model_output := pys "Hello" }

theorem round_half_even_intCast (n : ℤ) : round_half_even (n : ℚ) = n := by
  unfold round_half_even
  rw [Int.floor_intCast]
  norm_num

theorem empty_retrieval_shape (user_message : PyStr) (env : PipelineEnv)
    (htop : env.top_level_failure = false)
    (hana : env.analyzer_failure = false)
    (hgen : env.generator_failure = false)
    (hprod : env.structured_data.products = [])
    (hserv : env.structured_data.services = [])
    (hstore : env.structured_data.store_info = none)
    (hchunks : env.unstructured_data.chunks = [])
    (hcomp : env.analysis_fields.complexity = "simple")
    (hjod : py_in (pys "JOD") (py_strip env.model_output) = false)
    (hqual : contains_any quality_words (py_lower (py_strip env.model_output)) = false) :
    (generate_response user_message "en" env).confidence = 0.27 ∧
    (generate_response user_message "en" env).data_sources.structured = false ∧
    (generate_response user_message "en" env).data_sources.unstructured = false ∧
    (generate_response user_message "en" env).data_sources.store_info = false ∧
    (generate_response user_message "en" env).data_sources.hybrid = true := by
  have hval : clamp_and_round ((0.2 : ℚ) + 0.05 + 0.02) = 0.27 := by
    rw [clamp_and_round, py_round3]
    have h1 : max (0.15 : ℚ) (min 0.95 ((0.2 : ℚ) + 0.05 + 0.02)) * 1000 = ((270 : ℤ) : ℚ) := by
      norm_num
    rw [h1, round_half_even_intCast]
    norm_num
  unfold generate_response generate_hybrid_response build_response_data
    calculate_hybrid_confidence analyze_query
  simp [htop, hana, hgen, hprod, hserv, hstore, hchunks, hcomp, hjod, hqual, hval]

/-- C5 counterexample: in the claimed scenario (no products, services,
store info or chunks; simple complexity) the computed confidence is 0.27,
not 0.25 — the supported-language bonus of +0.02 (rag_service.py:832-834)
always fires for a resolved language — and the `hybrid` flag of
`data_sources` is true (rag_service.py:628), so not all flags are false. -/
theorem c5_counterexample_confidence_and_hybrid :
    (generate_response (pys "hi") "en" c5_env).confidence = 0.27 ∧
    ¬ (generate_response (pys "hi") "en" c5_env).confidence = 0.25 ∧
    (generate_response (pys "hi") "en" c5_env).data_sources.hybrid = true := by
  have h := empty_retrieval_shape (pys "hi") c5_env rfl rfl rfl rfl rfl rfl rfl rfl
    (by decide) (by decide)
  refine ⟨h.1, ?_, h.2.2.2.2⟩
  rw [h.1]
  norm_num

/-- C5 (amended): for a request whose retrieval yields no products, no
services, no store info and no chunks, with query complexity "simple",
language hint "en", and a model answer that earns no text-quality bonus,
the computed confidence is exactly 0.27 (0.20 base + 0.05 simple-complexity
bonus + 0.02 supported-language bonus); the structured, unstructured and
store_info flags of `data_sources` are false but the `hybrid` flag is
always true. -/
theorem c5_empty_retrieval_confidence (user_message : PyStr) (env : PipelineEnv)
    (htop : env.top_level_failure = false)
    (hana : env.analyzer_failure = false)
    (hgen : env.generator_failure = false)
    (hprod : env.structured_data.products = [])
    (hserv : env.structured_data.services = [])
    (hstore : env.structured_data.store_info = none)
    (hchunks : env.unstructured_data.chunks = [])
    (hcomp : env.analysis_fields.complexity = "simple")
    (hjod : py_in (pys "JOD") (py_strip env.model_output) = false)
    (hqual : contains_any quality_words (py_lower (py_strip env.model_output)) = false) :
    (generate_response user_message "en" env).confidence = 0.27 ∧
    (generate_response user_message "en" env).data_sources.structured = false ∧
    (generate_response user_message "en" env).data_sources.unstructured = false ∧
    (generate_response user_message "en" env).data_sources.store_info = false ∧
    (generate_response user_message "en" env).data_sources.hybrid = true :=
  empty_retrieval_shape user_message env htop hana hgen hprod hserv hstore hchunks
    hcomp hjod hqual

theorem c5_witness :
    (generate_response (pys "hi") "en" c5_env).confidence = 0.27 ∧
    (generate_response (pys "hi") "en" c5_env).data_sources.structured = false ∧
    (generate_response (pys "hi") "en" c5_env).data_sources.unstructured = false ∧
    (generate_response (pys "hi") "en" c5_env).data_sources.store_info = false ∧
    (generate_response (pys "hi") "en" c5_env).data_sources.hybrid = true :=
  c5_empty_retrieval_confidence (pys "hi") c5_env rfl rfl rfl rfl rfl rfl rfl rfl
    (by decide) (by decide)

/-- The similarity threshold configured at rag_service.py:37. -/
def similarity_threshold : ℚ := 0.60

/-- Converts a kept search result into the chunk dict built at
rag_service.py:435-442. -/
def chunk_of (r : SearchResult) : RetrievedChunk :=
  { text := r.text, source := r.source, score := r.score,
    chunk_index := r.chunk_index, language := r.language }

/-- The quality filter of the retrieval loop (rag_service.py:429-434):
score at or above the similarity threshold, then non-empty text whose
stripped length exceeds 20. -/
def passes_quality (r : SearchResult) : Bool :=
  decide (similarity_threshold ≤ r.score) &&
  (decide (r.text ≠ []) && decide (20 < (py_strip r.text).length))

/-- One iteration of the retrieval loop (rag_service.py:428-444),
accumulating kept chunks, their source names and the running total score. -/
def retrieval_step (acc : List RetrievedChunk × List PyStr × ℚ) (r : SearchResult) :
    List RetrievedChunk × List PyStr × ℚ :=
  if passes_quality r then (acc.1 ++ [chunk_of r], acc.2.1 ++ [r.source], acc.2.2 + r.score)
  else acc

/-- Embeds `_retrieve_unstructured_data` (rag_service.py:424-456): the loop
filters matches by quality, the returned chunk list is capped at 8
(line 450), sources pass through `list(set(...))` (modelled as
order-preserving dedup), and the average score is the mean similarity of
the kept set (line 447), computed before the cap. -/
def retrieve_unstructured_data (search_results : List SearchResult) : UnstructuredResult :=
  let acc := search_results.foldl retrieval_step ([], [], 0)
  { chunks := acc.1.take 8
    sources := acc.2.1.dedup
    total_found := search_results.length
    quality_chunks := acc.1.length
    average_score := if acc.1 = [] then 0 else acc.2.2 / (acc.1.length : ℚ) }

theorem retrieval_foldl (search_results : List SearchResult)
    (cs : List RetrievedChunk) (ss : List PyStr) (t : ℚ) :
    search_results.foldl retrieval_step (cs, ss, t) =
      (cs ++ (search_results.filter passes_quality).map chunk_of,
       ss ++ (search_results.filter passes_quality).map SearchResult.source,
       t + ((search_results.filter passes_quality).map SearchResult.score).sum) := by
  induction search_results generalizing cs ss t with
  | nil => simp
  | cons r rs ih =>
    rcases h : passes_quality r with _ | _
    · simp [List.foldl_cons, retrieval_step, h, List.filter_cons, ih]
    · simp [List.foldl_cons, retrieval_step, h, List.filter_cons, ih, List.append_assoc,
        add_assoc]

theorem retrieve_unstructured_data_eq (search_results : List SearchResult) :
    retrieve_unstructured_data search_results =
      { chunks := ((search_results.filter passes_quality).map chunk_of).take 8
        sources := ((search_results.filter passes_quality).map SearchResult.source).dedup
        total_found := search_results.length
        quality_chunks := (search_results.filter passes_quality).length
        average_score :=
          if search_results.filter passes_quality = [] then 0
          else ((search_results.filter passes_quality).map SearchResult.score).sum /
            ((search_results.filter passes_quality).length : ℚ) } := by
  unfold retrieve_unstructured_data
  rw [retrieval_foldl]
  simp [List.map_eq_nil_iff]

/-- C7: every chunk kept in the UnstructuredResult has similarity score at
or above the configured threshold (0.60) and stripped text length above the
20-character minimum; at most 8 chunks are returned; the source list is
deduplicated; and the reported average score is the mean similarity of the
kept set. -/
theorem c7_retrieval_quality_invariants (search_results : List SearchResult) :
    (∀ c ∈ (retrieve_unstructured_data search_results).chunks,
        similarity_threshold ≤ c.score ∧ 20 < (py_strip c.text).length) ∧
    (retrieve_unstructured_data search_results).chunks.length ≤ 8 ∧
    (retrieve_unstructured_data search_results).sources.Nodup ∧
    ((retrieve_unstructured_data search_results).quality_chunks ≠ 0 →
      (retrieve_unstructured_data search_results).average_score =
        ((search_results.filter passes_quality).map SearchResult.score).sum /
          ((search_results.filter passes_quality).length : ℚ)) := by
  rw [retrieve_unstructured_data_eq]
  refine ⟨?_, ?_, ?_, ?_⟩
  · intro c hc
    rcases List.mem_map.mp (List.mem_of_mem_take hc) with ⟨r, hr, hrc⟩
    have hpass := (List.mem_filter.mp hr).2
    simp only [passes_quality, Bool.and_eq_true, decide_eq_true_eq] at hpass
    rw [← hrc]
    exact ⟨hpass.1, hpass.2.2⟩
  · show (((search_results.filter passes_quality).map chunk_of).take 8).length ≤ 8
    rw [List.length_take]
    exact min_le_left _ _
  · exact List.nodup_dedup _
  · intro hne
    have hne2 : (search_results.filter passes_quality).length ≠ 0 := hne
    have hemp : search_results.filter passes_quality ≠ [] := by
      intro hemp
      rw [hemp] at hne2
      exact hne2 rfl
    show (if search_results.filter passes_quality = [] then (0 : ℚ) else
        ((search_results.filter passes_quality).map SearchResult.score).sum /
          ((search_results.filter passes_quality).length : ℚ)) =
      ((search_results.filter passes_quality).map SearchResult.score).sum /
        ((search_results.filter passes_quality).length : ℚ)
    rw [if_neg hemp]

/-- A kept vector-search match for the C7 witness. -/
def c7_r1 : SearchResult :=
  { score := 0.9, text := pys "Returns are accepted within fourteen days of purchase.",
    source := pys "policy.pdf", chunk_index := 0, language := pys "en" }

/-- A rejected (low-score) vector-search match for the C7 witness. -/
def c7_r2 : SearchResult :=
  { score := 0.3, text := pys "short", source := pys "x", chunk_index := 1,
    language := pys "en" }

/-- A vector-search outcome with one kept and one rejected match. -/
def c7_demo_results : List SearchResult := [c7_r1, c7_r2]

theorem c7_demo_filter : c7_demo_results.filter passes_quality = [c7_r1] := by
  have h1 : passes_quality c7_r1 = true := by
    simp only [passes_quality, Bool.and_eq_true, decide_eq_true_eq]
    refine ⟨by norm_num [similarity_threshold, c7_r1], by decide, by decide⟩
  have h2 : passes_quality c7_r2 = false := by
    have hlow : ¬ similarity_threshold ≤ c7_r2.score := by
      norm_num [similarity_threshold, c7_r2]
    unfold passes_quality
    rw [decide_eq_false_iff_not.mpr hlow]
    simp
  simp [c7_demo_results, List.filter_cons, h1, h2]

theorem c7_witness :
    (retrieve_unstructured_data c7_demo_results).sources.Nodup ∧
    (retrieve_unstructured_data c7_demo_results).average_score =
      ((c7_demo_results.filter passes_quality).map SearchResult.score).sum /
        ((c7_demo_results.filter passes_quality).length : ℚ) := by
  refine ⟨(c7_retrieval_quality_invariants c7_demo_results).2.2.1,
    (c7_retrieval_quality_invariants c7_demo_results).2.2.2 ?_⟩
  rw [retrieve_unstructured_data_eq]
  show (c7_demo_results.filter passes_quality).length ≠ 0
  rw [c7_demo_filter]
  simp

/-- Modelled from the spec: a chunk yielded by the streaming generator
`generate_streaming_response`, which webhook.py:200 iterates but whose
definition is absent from the repository snapshot.  Per the specification
(§4.6, streaming contract) it yields zero or more token events and one
complete event carrying the full text and resolved metadata. -/
inductive StreamChunk
  | token (text : PyStr)
  | complete (content : PyStr) (language : String) (confidence : ℚ)
deriving DecidableEq

/-- A server-sent event emitted by `generate_sse_stream`
(webhook.py:159-252). -/
inductive SSEEvent
  | session (session_id : PyStr)
  | chunk (c : StreamChunk)
  | done
  | error (message : PyStr)
deriving DecidableEq

/-- The localized error payload of the except branch (webhook.py:246-251):
Arabic when `msg.locale == "ar"`, English otherwise. -/
def stream_error_message (locale : Option String) : PyStr :=
  if locale = some "ar" then pys "عذراً، أواجه مشكلة تقنية. يرجى المحاولة مرة أخرى."
  else pys "Sorry, I\x27m experiencing technical difficulties. Please try again."

/-- The failure points of one pass through the SSE generator: an exception
in the session/user/history setup before the session event is yielded
(webhook.py:162-188), a failure after k chunks while iterating the model
stream (webhook.py:200-217), a failure while persisting the conversation
after streaming (webhook.py:219-237), or no failure.  Client cancellation
is a BaseException and out of scope: the embedding models the
Exception-derived failures caught by the except at webhook.py:242. -/
inductive StreamFailure
  | beforeSession
  | midStream (k : Nat)
  | atSave
  | noFailure
deriving DecidableEq

/-- Embeds `generate_sse_stream` (webhook.py:159-252): the session event is
yielded only after the setup block (line 191); each model chunk is
forwarded (line 207); the done event ends the try block (line 240); any
caught exception ends the stream with a single error event (line 252). -/
def generate_sse_stream (session_id : PyStr) (locale : Option String)
    (chunks : List StreamChunk) (failure : StreamFailure) : List SSEEvent :=
  match failure with
  | .beforeSession => [.error (stream_error_message locale)]
  | .midStream k => .session session_id ::
      ((chunks.take k).map .chunk ++ [.error (stream_error_message locale)])
  | .atSave => .session session_id ::
      (chunks.map .chunk ++ [.error (stream_error_message locale)])
  | .noFailure => .session session_id :: (chunks.map .chunk ++ [.done])

/-- Terminal events of the stream protocol: done and error. -/
def is_terminal : SSEEvent → Bool
  | .done => true
  | .error _ => true
  | _ => false

/-- Tests whether an event sequence starts with a session event. -/
def head_is_session : List SSEEvent → Bool
  | .session _ :: _ => true
  | _ => false

theorem stream_body_no_terminal (session_id : PyStr) (cs : List StreamChunk) :
    (SSEEvent.session session_id :: cs.map SSEEvent.chunk).filter is_terminal = [] := by
  apply List.filter_eq_nil_iff.mpr
  intro e he
  rcases List.mem_cons.mp he with rfl | hmem
  · simp [is_terminal]
  · rcases List.mem_map.mp hmem with ⟨c, hc, rfl⟩
    simp [is_terminal]

/-- C4 counterexample: when the setup block raises before the session event
is yielded (for instance, the session-history database query fails at
webhook.py:166-181), the produced sequence is a single error event, so the
session event is not the first event of that sequence, refuting the claim
that the session event is always first. -/
theorem c4_counterexample_error_before_session :
    generate_sse_stream (pys "s1") (some "en") [] StreamFailure.beforeSession =
      [SSEEvent.error (stream_error_message (some "en"))] ∧
    head_is_session (generate_sse_stream (pys "s1") (some "en") []
      StreamFailure.beforeSession) = false :=
  ⟨rfl, rfl⟩

/-- C4 (amended): every event sequence produced by the streaming endpoint
is non-empty and ends in exactly one terminal event — a done event or an
error event, never both and never neither; since the unique terminal event
is last, no done event ever follows an error event; and the session event
is the first event of every sequence except when a failure occurs before
the session setup completes, in which case the sequence is a single error
event. -/
theorem c4_stream_terminal_discipline (session_id : PyStr) (locale : Option String)
    (chunks : List StreamChunk) (failure : StreamFailure) :
    (∃ body t, generate_sse_stream session_id locale chunks failure = body ++ [t] ∧
        is_terminal t = true ∧ body.filter is_terminal = []) ∧
    (head_is_session (generate_sse_stream session_id locale chunks failure) = true ∨
      generate_sse_stream session_id locale chunks failure =
        [SSEEvent.error (stream_error_message locale)]) := by
  cases failure with
  | beforeSession =>
    exact ⟨⟨[], .error (stream_error_message locale), rfl, rfl, rfl⟩, Or.inr rfl⟩
  | midStream k =>
    exact ⟨⟨.session session_id :: (chunks.take k).map .chunk,
      .error (stream_error_message locale), by simp [generate_sse_stream], rfl,
      stream_body_no_terminal session_id (chunks.take k)⟩, Or.inl rfl⟩
  | atSave =>
    exact ⟨⟨.session session_id :: chunks.map .chunk,
      .error (stream_error_message locale), by simp [generate_sse_stream], rfl,
      stream_body_no_terminal session_id chunks⟩, Or.inl rfl⟩
  | noFailure =>
    exact ⟨⟨.session session_id :: chunks.map .chunk, .done,
      by simp [generate_sse_stream], rfl,
      stream_body_no_terminal session_id chunks⟩, Or.inl rfl⟩

/-- The store-hours keywords of `get_force_arabic_response`
(prompt_service.py:201). -/
def hours_keywords : List PyStr :=
  [pys "ساعات", pys "العمل", pys "فتح", pys "مفتوح"]

/-- The contact keywords of `get_force_arabic_response`
(prompt_service.py:212). -/
def contact_keywords : List PyStr :=
  [pys "اتصال", pys "هاتف", pys "رقم", pys "تواصل"]

/-- The canned store-hours answer of `get_force_arabic_response`
(prompt_service.py:202-209), with the `store_info` values inlined. -/
def canned_hours_answer : PyStr := pys "ساعات عمل متجر تك مارت فلسطين:\n\n• الأحد - الخميس: 9:00 صباحاً - 8:00 مساءً\n• الجمعة: 9:00 صباحاً - 2:00 ظهراً\n• السبت: 10:00 صباحاً - 8:00 مساءً\n\nللاستفسارات: +970-9-234-5678\nالعنوان: شارع الرفيدية، نابلس"

/-- The canned contact answer of `get_force_arabic_response`
(prompt_service.py:213-222), with the `store_info` values inlined. -/
def canned_contact_answer : PyStr := pys "معلومات التواصل مع تك مارت فلسطين:\n\n📞 الهاتف: +970-9-234-5678\n📧 البريد الإلكتروني: info@techmart-palestine.ps\n📍 العنوان: شارع الرفيدية، نابلس\n\nساعات العمل:\n• الأحد - الخميس: 9:00 صباحاً - 8:00 مساءً\n• الجمعة: 9:00 صباحاً - 2:00 ظهراً\n• السبت: 10:00 صباحاً - 8:00 مساءً"

/-- The generic Arabic template of `get_force_arabic_response`
(prompt_service.py:225-232), with the `store_info` values inlined. -/
def generic_arabic_answer : PyStr := pys "أهلاً وسهلاً بك في تك مارت فلسطين.\n\nللحصول على المساعدة:\n📞 +970-9-234-5678\n📧 info@techmart-palestine.ps\n📍 شارع الرفيدية، نابلس\n\nنحن هنا لخدمتك!"

/-- Embeds `get_force_arabic_response` (prompt_service.py:198-232): hours
keywords first, then contact keywords, else the generic template. -/
def get_force_arabic_response (user_message : PyStr) : PyStr :=
  if contains_any hours_keywords user_message = true then canned_hours_answer
  else if contains_any contact_keywords user_message = true then canned_contact_answer
  else generic_arabic_answer

/-- Embeds `get_simple_arabic_prompt` (prompt_service.py:234-246). -/
def get_simple_arabic_prompt (user_message : PyStr) : PyStr :=
  pys "أجب على هذا السؤال بالعربية فقط:\n\nالسؤال: " ++ user_message ++
  pys "\n\nقواعد:\n- اكتب بالعربية فقط\n- لا تستخدم الإنجليزية\n- كن مفيداً ومهذباً\n- للمزيد من المعلومات: +970-9-234-5678\n\nالإجابة بالعربية:"

/-- Modelled from the spec: the Arabic character share of a generated
answer, re-counted over the output with the source counting helpers
(Arabic-block characters over alphabetic characters); an answer with no
alphabetic character counts as share 0, i.e. fully inconsistent. -/
def arabic_share (text : PyStr) : ℚ :=
  if count_alpha_chars text = 0 then 0
  else (count_arabic_chars text : ℚ) / (count_alpha_chars text : ℚ)

/-- Modelled from the spec: the forced-language correction driver of §4.6,
whose orchestration is absent from the repository snapshot — only its
PromptService helpers (`get_force_arabic_response`,
`get_simple_arabic_prompt`) exist under src.  First the canned answers
keyed by the hours/contact topic keywords, with no extra model call;
otherwise one additional model call with the simplified single-language
prompt — its output is modelled by `retry_answer` — kept only if
re-verification reaches the 0.3 threshold; otherwise the generic localized
template.  The second component counts extra generative-model calls. -/
def arabic_correction_path (user_message retry_answer : PyStr) : PyStr × Nat :=
  if contains_any hours_keywords user_message = true ∨
     contains_any contact_keywords user_message = true then
    (get_force_arabic_response user_message, 0)
  else if (0.3 : ℚ) ≤ arabic_share retry_answer then (retry_answer, 1)
  else (generic_arabic_answer, 1)

/-- Modelled from the spec: the language-consistency check of §4.6 — when
the resolved language is the secondary language ("ar") and the Arabic share
of the generated answer falls below the fixed 0.3 threshold, the answer is
discarded and the correction path is taken; otherwise the answer is
returned unchanged with no extra model call. -/
def apply_language_consistency (language : String)
    (user_message answer retry_answer : PyStr) : PyStr × Nat :=
  if language = "ar" ∧ arabic_share answer < 0.3 then
    arabic_correction_path user_message retry_answer
  else (answer, 0)

/-- C3: for a generated answer whose resolved language is Arabic, if the
Arabic character share of the output is below 0.3, the answer is discarded
and replaced through the corrective path: a canned localized answer when a
topic keyword (hours, contact) matches, with no extra model call;
otherwise at most one additional simplified single-language model call
whose result is kept only if re-verification reaches the 0.3 threshold,
else the generic localized template — so at most one extra model call is
made per request. -/
theorem c3_correction_path_bounded (language : String)
    (user_message answer retry_answer : PyStr)
    (hlang : language = "ar")
    (hbad : arabic_share answer < 0.3) :
    (apply_language_consistency language user_message answer retry_answer).2 ≤ 1 ∧
    ((contains_any hours_keywords user_message = true ∨
        contains_any contact_keywords user_message = true) →
      apply_language_consistency language user_message answer retry_answer =
        (get_force_arabic_response user_message, 0)) ∧
    (¬ (contains_any hours_keywords user_message = true ∨
        contains_any contact_keywords user_message = true) →
      ((0.3 : ℚ) ≤ arabic_share retry_answer →
        apply_language_consistency language user_message answer retry_answer =
          (retry_answer, 1)) ∧
      (arabic_share retry_answer < 0.3 →
        apply_language_consistency language user_message answer retry_answer =
          (generic_arabic_answer, 1))) := by
  subst hlang
  have heq : apply_language_consistency "ar" user_message answer retry_answer =
      arabic_correction_path user_message retry_answer := by
    unfold apply_language_consistency
    rw [if_pos ⟨rfl, hbad⟩]
  rw [heq]
  unfold arabic_correction_path
  refine ⟨?_, ?_, ?_⟩
  · split_ifs <;> simp
  · intro hkw
    rw [if_pos hkw]
  · intro hkw
    rw [if_neg hkw]
    constructor
    · intro hok
      rw [if_pos hok]
    · intro hbad2
      rw [if_neg (not_le.mpr hbad2)]

theorem c3_witness :
    apply_language_consistency "ar" (pys "ما هي ساعات العمل؟")
      (pys "Our opening hours are nine to eight.") (pys "x") =
      (get_force_arabic_response (pys "ما هي ساعات العمل؟"), 0) := by
  have ha : count_arabic_chars (pys "Our opening hours are nine to eight.") = 0 := by
    decide
  have hb : ¬ count_alpha_chars (pys "Our opening hours are nine to eight.") = 0 := by
    decide
  have hshare : arabic_share (pys "Our opening hours are nine to eight.") < 0.3 := by
    unfold arabic_share
    rw [if_neg hb, ha]
    norm_num
  exact (c3_correction_path_bounded "ar" (pys "ما هي ساعات العمل؟")
    (pys "Our opening hours are nine to eight.") (pys "x") rfl hshare).2.1
    (Or.inl (by decide))

/-- Python `str(n)` for integers. -/
def int_str (n : Int) : PyStr := (toString n).toList

/-- Python `str(n)` for naturals (loop counters). -/
def nat_str (n : Nat) : PyStr := (toString n).toList

/-- Python fixed-point float formatting `{x:.Nf}`: half-even decimal
rounding at `prec` places; `{x:.0f}` prints no decimal point.  The binary
double representation is not modelled; every value these claims format is
an exact decimal, where the two roundings agree. -/
def py_fmt_fixed (prec : Nat) (q : ℚ) : PyStr :=
  let scaled := round_half_even (q * ((10 : ℚ) ^ prec))
  if prec = 0 then int_str scaled
  else
    let sign := if scaled < 0 then pys "-" else []
    let a := scaled.natAbs
    let frac := toString (a % 10 ^ prec)
    sign ++ nat_str (a / 10 ^ prec) ++ pys "." ++
      List.replicate (prec - frac.length) '0' ++ frac.toList

/-- Renders one product entry of the data context (rag_service.py:707-721).
When `model_number` is null, Python renders the string "None": the dict key
is always present, so the `get` default is unreachable. -/
def render_product (i : Nat) (p : ProductDict) : PyStr :=
  let discount_info :=
    if 0 < p.discount_percentage then
      pys " (🏷️ " ++ py_fmt_fixed 1 p.discount_percentage ++ pys "% OFF - Save " ++
        py_fmt_fixed 0 (p.original_price_jod - p.price_jod) ++ pys " JOD)"
    else []
  let stock_status :=
    if 0 < p.stock_quantity then pys "✅ In Stock" else pys "❌ Out of Stock"
  let model_rendered := match p.model_number with
    | some m => m
    | none => pys "None"
  let promo_line := match p.promotion_text with
    | some t => if t ≠ [] then pys "• Promotion: " ++ t else []
    | none => []
  pys "\n" ++ nat_str i ++ pys ". " ++ p.name ++ pys " (" ++ p.brand ++
  pys ")\n   • SKU: " ++ p.sku ++ pys " | Category: " ++ p.category ++
  pys "\n   • Price: " ++ py_fmt_fixed 0 p.price_jod ++ pys " JOD" ++ discount_info ++
  pys "\n   • Stock: " ++ int_str p.stock_quantity ++ pys " units | Status: " ++
  stock_status ++ pys "\n   • Warranty: " ++ int_str p.warranty_months ++
  pys " months\n   • Model: " ++ model_rendered ++ pys "\n   " ++ promo_line ++ pys "\n"

/-- Renders one service entry of the data context (rag_service.py:727-733). -/
def render_service (i : Nat) (s : ServiceDict) : PyStr :=
  pys "\n" ++ nat_str i ++ pys ". " ++ s.service_name ++ pys " (" ++ s.category ++
  pys ")\n   • Price: " ++ py_fmt_fixed 0 s.base_price_jod ++
  pys " JOD\n   • Duration: " ++ py_fmt_fixed 1 s.duration_hours ++
  pys " hours\n   • Description: " ++ s.description ++
  pys "\n   • Requirements: " ++ s.requirements_repr ++ pys "\n"

/-- Renders the store-information section (rag_service.py:736-748). -/
def render_store (store : StoreInfo) : List PyStr :=
  [pys "\n🏪 STORE INFORMATION:",
   pys "\nStore: " ++ store.name ++ pys "\nAddress: " ++ store.address ++
     pys "\nPhone: " ++ store.phone ++ pys "\nEmail: " ++ store.email ++ pys "\n"] ++
  (if store.opening_hours_nonempty then
     [pys "Hours: Check opening_hours data for detailed schedule"] else [])

/-- Renders one policy/document chunk of the data context
(rag_service.py:753-757). -/
def render_chunk (i : Nat) (c : RetrievedChunk) : PyStr :=
  pys "\n[Source " ++ nat_str i ++ pys "]: " ++ c.source ++ pys " (Relevance: " ++
  py_fmt_fixed 2 c.score ++ pys ")\n" ++ c.text ++ pys "\n"

/-- Python `enumerate(xs, i)` combined with a renderer. -/
def enum_render {α : Type} (f : Nat → α → PyStr) : Nat → List α → List PyStr
  | _, [] => []
  | i, x :: xs => f i x :: enum_render f (i + 1) xs

/-- Embeds `_build_data_context` (rag_service.py:693-759): the section
parts are collected in order — products (first 6), services, store
information, policy chunks (first 5) — and joined with newlines.  No
global character budget is applied anywhere in this function; the
`max_context_length` configured at rag_service.py:38 is never read. -/
def build_data_context (structured_data : StructuredData)
    (unstructured_data : UnstructuredResult) : PyStr :=
  let product_parts :=
    if structured_data.products ≠ [] then
      pys "\n🛒 CURRENT PRODUCT INFORMATION:" ::
        enum_render render_product 1 (structured_data.products.take 6)
    else []
  let service_parts :=
    if structured_data.services ≠ [] then
      pys "\n🔧 AVAILABLE SERVICES:" ::
        enum_render render_service 1 structured_data.services
    else []
  let store_parts := match structured_data.store_info with
    | some store => render_store store
    | none => []
  let chunk_parts :=
    if unstructured_data.chunks ≠ [] then
      pys "\n📋 RELEVANT POLICIES & INFORMATION:" ::
        enum_render render_chunk 1 (unstructured_data.chunks.take 5)
    else []
  List.intercalate (pys "\n") (product_parts ++ service_parts ++ store_parts ++ chunk_parts)

/-- One conversation turn supplied by the session collaborator. -/
structure Turn where
  role : String
  content : PyStr
deriving DecidableEq

/-- Renders one history message (rag_service.py:773-778): role label, the
content truncated to 150 characters, an ellipsis appended when longer. -/
def render_turn (t : Turn) : PyStr :=
  (if t.role = "user" then pys "Customer" else pys "Assistant") ++ pys ": " ++
  (t.content.take 150 ++ if 150 < t.content.length then pys "..." else [])

/-- Embeds `_build_conversation_context` (rag_service.py:761-781): empty
history yields the empty string; otherwise the last 8 messages, each
truncated, joined with newlines between a header and a trailing blank. -/
def build_conversation_context (conversation_history : List Turn) : PyStr :=
  if conversation_history = [] then []
  else
    List.intercalate (pys "\n")
      ([pys "\n💬 CONVERSATION CONTEXT:"] ++
       (conversation_history.drop (conversation_history.length - 8)).map render_turn ++
       [[]])

/-- The context budget configured at rag_service.py:38; it is assigned once
and never read by any other line of the repository. -/
def max_context_length : Nat := 5000

/-- The empty structured-data record (no products, services or store info). -/
def empty_structured : StructuredData :=
  { products := [], services := [], store_info := none }

/-- An unstructured result holding a single kept chunk. -/
def single_chunk_ud (c : RetrievedChunk) : UnstructuredResult :=
  { chunks := [c], sources := [c.source], total_found := 1, quality_chunks := 1,
    average_score := c.score }

theorem intercalate_pair (sep a b : PyStr) :
    List.intercalate sep [a, b] = a ++ sep ++ b := by
  simp [List.intercalate, List.intersperse, List.append_assoc]

theorem build_data_context_single (c : RetrievedChunk) :
    build_data_context empty_structured (single_chunk_ud c) =
      pys "\n📋 RELEVANT POLICIES & INFORMATION:" ++ pys "\n" ++ render_chunk 1 c := by
  show List.intercalate (pys "\n")
      [pys "\n📋 RELEVANT POLICIES & INFORMATION:", render_chunk 1 c] = _
  exact intercalate_pair _ _ _

theorem data_context_single_chunk_ge (c : RetrievedChunk) :
    c.text.length ≤ (build_data_context empty_structured (single_chunk_ud c)).length := by
  rw [build_data_context_single]
  unfold render_chunk
  simp only [List.length_append]
  omega

/-- C6 (amended): the context assembler applies no global character
budget — the configured `max_context_length` (5000) is assigned but never
read — and the assembled context embeds each rendered chunk text verbatim,
so its length is at least the chunk text length and grows without bound;
only per-section item caps exist (first 6 products, first 5 chunks, last 8
history messages truncated to 150 characters).  The counterexample
exhibits a context exceeding the budget. -/
theorem c6_no_global_budget (c : RetrievedChunk) :
    c.text.length ≤ (build_data_context empty_structured (single_chunk_ud c)).length :=
  data_context_single_chunk_ge c

/-- A retrieved chunk carrying a 6000-character policy text. -/
def c6_big_chunk : RetrievedChunk :=
  { text := List.replicate 6000 'a', source := pys "policy.pdf", score := 0.9,
    chunk_index := 0, language := pys "en" }

/-- C6 counterexample: with a single 6000-character chunk the assembled
context exceeds the configured `max_context_length` of 5000 — the budget
invariant claimed by the specification is not enforced by
`_build_data_context`, and no history-first/chunks-second trimming
exists. -/
theorem c6_counterexample_budget_exceeded :
    max_context_length <
      (build_data_context empty_structured (single_chunk_ud c6_big_chunk)).length := by
  have h := data_context_single_chunk_ge c6_big_chunk
  have htext : c6_big_chunk.text.length = 6000 := by
    show (List.replicate 6000 'a').length = 6000
    rw [List.length_replicate]
  rw [htext] at h
  unfold max_context_length
  omega

/-- An empty unstructured result for concrete instantiations. -/
def c2_demo_ud : UnstructuredResult :=
  { chunks := [], sources := [], total_found := 0, quality_chunks := 0, average_score := 0 }

/-- A concrete query analysis for instantiating the scorer bounds. -/
def c2_demo_qa : QueryAnalysis :=
  { intent := "general", urgency := "medium", complexity := "simple", language := "en" }

theorem c2_witness :
    (0.15 : ℚ) ≤ calculate_hybrid_confidence empty_structured c2_demo_ud c2_demo_qa
      (pys "hello") ∧
    calculate_hybrid_confidence empty_structured c2_demo_ud c2_demo_qa (pys "hello") ≤ 0.95 :=
  c2_confidence_always_in_bounds empty_structured c2_demo_ud c2_demo_qa (pys "hello")

theorem c4_witness :
    (∃ body t, generate_sse_stream (pys "s") none [] StreamFailure.noFailure = body ++ [t] ∧
        is_terminal t = true ∧ body.filter is_terminal = []) ∧
    (head_is_session (generate_sse_stream (pys "s") none [] StreamFailure.noFailure) = true ∨
      generate_sse_stream (pys "s") none [] StreamFailure.noFailure =
        [SSEEvent.error (stream_error_message none)]) :=
  c4_stream_terminal_discipline (pys "s") none [] StreamFailure.noFailure

theorem c6_witness :
    c6_big_chunk.text.length ≤
      (build_data_context empty_structured (single_chunk_ud c6_big_chunk)).length :=
  c6_no_global_budget c6_big_chunk

theorem c10_witness :
    (((fallback_response (pys "hi") "en").metadata.intent = "system_error" ∧
        "system_error" ∉ intent_enumeration) ∧
      ((fallback_response (pys "hi") "en").metadata.complexity = "error" ∧
        "error" ∉ complexity_enumeration)) :=
  c10_fallback_sentinels_outside_enums (pys "hi") "en"
